import Mathlib

/-!
Verification development for the career-agent repository
(src/career_agent/agent.py). The Python source is shallowly embedded:
pure functions become Lean functions, the tool-execution loop becomes a
structurally recursive function, and the unbounded conversation loop
becomes a fuel-indexed recursion whose out-of-fuel outcome marks a loop
that is still iterating. Python exceptions are modelled with Except.
-/

/-- The apostrophe character as a string, used when transcribing string
literals from the source. -/
def apos : String := String.singleton (Char.ofNat 39)

/-- A JSON value, as produced by the Python json module. Object key lists
represent Python dicts as returned by json.loads, so keys are taken to be
distinct (json.loads collapses duplicates). Numeric payloads are modelled
as integers; no behaviour relevant here inspects numbers. -/
inductive Json where
  | null : Json
  | bool : Bool → Json
  | num : Int → Json
  | str : String → Json
  | arr : List Json → Json
  | obj : List (String × Json) → Json


/-- Escape one character the way json.dumps does for the characters that
can occur in the payloads built by this program. -/
def escapeJsonChar (c : Char) : String :=
  if c = Char.ofNat 34 then "\\\""
  else if c = Char.ofNat 92 then "\\\\"
  else if c = Char.ofNat 10 then "\\n"
  else if c = Char.ofNat 9 then "\\t"
  else if c = Char.ofNat 13 then "\\r"
  else String.singleton c

/-- Escape a string the way json.dumps does. -/
def escapeJsonString (s : String) : String :=
  String.join (s.toList.map escapeJsonChar)

mutual

/-- Embeds json.dumps with its default separators (comma-space and
colon-space), as used at line 198 of src/career_agent/agent.py to
serialize each tool result payload. -/
def dumps : Json → String
  | Json.null => "null"
  | Json.bool b => if b then "true" else "false"
  | Json.num n => toString n
  | Json.str s => "\"" ++ escapeJsonString s ++ "\""
  | Json.arr xs => "[" ++ dumpsList xs ++ "]"
  | Json.obj kvs => "\x7b" ++ dumpsObj kvs ++ "\x7d"

/-- Serialize the elements of a JSON array, comma-space separated. -/
def dumpsList : List Json → String
  | [] => ""
  | [x] => dumps x
  | x :: y :: rest => dumps x ++ ", " ++ dumpsList (y :: rest)

/-- Serialize the members of a JSON object, comma-space separated. -/
def dumpsObj : List (String × Json) → String
  | [] => ""
  | [(k, v)] => "\"" ++ escapeJsonString k ++ "\": " ++ dumps v
  | (k, v) :: kv :: rest =>
      "\"" ++ escapeJsonString k ++ "\": " ++ dumps v ++ ", " ++ dumpsObj (kv :: rest)

end

mutual

/-- Python repr of a JSON value, used for values interpolated inside
containers by an f-string. String escaping inside repr is not modelled;
no claim depends on it. -/
def pyRepr : Json → String
  | Json.null => "None"
  | Json.bool b => if b then "True" else "False"
  | Json.num n => toString n
  | Json.str s => apos ++ s ++ apos
  | Json.arr xs => "[" ++ pyReprList xs ++ "]"
  | Json.obj kvs => "\x7b" ++ pyReprObj kvs ++ "\x7d"

/-- repr of the elements of a Python list. -/
def pyReprList : List Json → String
  | [] => ""
  | [x] => pyRepr x
  | x :: y :: rest => pyRepr x ++ ", " ++ pyReprList (y :: rest)

/-- repr of the members of a Python dict. -/
def pyReprObj : List (String × Json) → String
  | [] => ""
  | [(k, v)] => apos ++ k ++ apos ++ ": " ++ pyRepr v
  | (k, v) :: kv :: rest =>
      apos ++ k ++ apos ++ ": " ++ pyRepr v ++ ", " ++ pyReprObj (kv :: rest)

end

/-- Python str() of a JSON value, as applied by f-string interpolation in
the tool handler bodies. -/
def pyStr : Json → String
  | Json.str s => s
  | v => pyRepr v

/-- A raw tool-call argument payload as the executor observes it through
json.loads: the text either decodes to a JSON value or json.loads raises.
The text itself is abstracted away; only its parse behaviour is kept,
which is everything the source reads from it. valid j stands for any
nonempty text that json.loads decodes to j; invalid stands for any
nonempty text json.loads rejects. -/
inductive JsonText where
  | valid : Json → JsonText
  | invalid : JsonText


/-- The message of the json.JSONDecodeError raised by json.loads on an
undecodable payload (a representative message; the source never inspects
it). -/
def jsonDecodeErrorMsg : String := "Expecting value: line 1 column 1 (char 0)"

/-- Embeds json.loads as called at line 179 of the source: returns the
decoded value or raises (models the raise as Except.error). -/
def json_loads : JsonText → Except String Json
  | JsonText.valid j => Except.ok j
  | JsonText.invalid => Except.error jsonDecodeErrorMsg

/-- The function part of a tool call object returned by the model: a tool
name and a raw argument payload. arguments is Option JsonText; none
models a falsy payload (Python None or the empty string), which line 178
of the source replaces with the text of an empty object. -/
structure ToolCallFunction where
  name : String
  arguments : Option JsonText


/-- A tool call request as returned by the model: a correlating id plus
the function part. -/
structure ToolCall where
  id : String
  function : ToolCallFunction


/-- A conversation message dict. History entries carry only role and
content; assistant messages produced by the tool branch also carry the
tool-call list; tool messages also carry tool_call_id. Absent dict keys
are modelled as none. -/
structure Msg where
  role : String
  content : String
  tool_calls : Option (List ToolCall)
  tool_call_id : Option String


/-- A Python tool function as the executor calls it: the declared
parameters in order (name and optional default, from the def signature at
lines 84 and 90 of the source) and the body, mapping the bound argument
values in parameter order to the list of Notifier (push) messages it
emits and either a returned payload or a raised exception message. -/
structure ToolFn where
  params : List (String × Option Json)
  body : List Json → List String × Except String Json

/-- Bind the parameters of a Python function called as func(**kwargs),
in declaration order. Raises TypeError (modelled as Except.error with the
diagnostic text) when a required parameter is missing. -/
def bindParams (fname : String) : List (String × Option Json) → List (String × Json) →
    Except String (List Json)
  | [], _ => Except.ok []
  | (pname, dflt) :: ps, kvs =>
      match kvs.lookup pname with
      | some v => (bindParams fname ps kvs).map (fun rest => v :: rest)
      | none =>
          match dflt with
          | some d => (bindParams fname ps kvs).map (fun rest => d :: rest)
          | none =>
              Except.error (fname ++ "() missing 1 required positional argument: "
                ++ apos ++ pname ++ apos)

/-- Python keyword-argument binding for func(**kwargs): an argument whose
key matches no declared parameter raises TypeError, otherwise parameters
are bound by name with defaults filled in. Diagnostic texts follow
CPython. -/
def bindKwargs (fname : String) (params : List (String × Option Json))
    (kvs : List (String × Json)) : Except String (List Json) :=
  match kvs.find? (fun kv => !(params.any (fun p => p.1 == kv.1))) with
  | some kv =>
      Except.error (fname ++ "() got an unexpected keyword argument "
        ++ apos ++ kv.1 ++ apos)
  | none => bindParams fname params kvs

/-- Embeds record_user_details (lines 84 to 87 of the source): email is
required, name defaults to "Name not provided", notes defaults to
"not provided"; the body pushes one notification and returns the payload
of recorded ok. -/
def record_user_details : ToolFn :=
  ⟨[("email", none),
    ("name", some (Json.str "Name not provided")),
    ("notes", some (Json.str "not provided"))],
   fun args =>
     let email := pyStr (args.getD 0 Json.null)
     let name := pyStr (args.getD 1 Json.null)
     let notes := pyStr (args.getD 2 Json.null)
     (["Recording interest from " ++ name ++ " with email " ++ email
         ++ " and notes " ++ notes],
      Except.ok (Json.obj [("recorded", Json.str "ok")]))⟩

/-- Embeds record_unknown_question (lines 90 to 93 of the source): a
single required question parameter; the body pushes one notification and
returns the payload of recorded ok. -/
def record_unknown_question : ToolFn :=
  ⟨[("question", none)],
   fun args =>
     let q := pyStr (args.getD 0 Json.null)
     (["Recording " ++ apos ++ q ++ apos ++ " asked that I couldn"
         ++ apos ++ "t answer"],
      Except.ok (Json.obj [("recorded", Json.str "ok")]))⟩

/-- Embeds the TOOL_DISPATCH dict (lines 97 to 100 of the source): the
static name-to-handler registry. -/
def TOOL_DISPATCH : List (String × ToolFn) :=
  [("record_user_details", record_user_details),
   ("record_unknown_question", record_unknown_question)]

/-- Outcome of calling a Python tool function with decoded arguments:
normal return (with the pushed notification messages), a TypeError from
argument binding, or another exception raised by the body (with the
notifications pushed before the raise). -/
inductive CallOutcome where
  | ok : List String → Json → CallOutcome
  | typeErr : String → CallOutcome
  | exn : List String → String → CallOutcome

/-- Calling func(**args) in Python: args must be a mapping, its keys must
fit the declared parameters, then the body runs. -/
def callPython (f : ToolFn) (fname : String) (args : Json) : CallOutcome :=
  match args with
  | Json.obj kvs =>
      match bindKwargs fname f.params kvs with
      | Except.error e => CallOutcome.typeErr e
      | Except.ok bound =>
          match f.body bound with
          | (pushes, Except.ok v) => CallOutcome.ok pushes v
          | (pushes, Except.error e) => CallOutcome.exn pushes e
  | Json.null => CallOutcome.typeErr
      (fname ++ "() argument after ** must be a mapping, not NoneType")
  | Json.bool _ => CallOutcome.typeErr
      (fname ++ "() argument after ** must be a mapping, not bool")
  | Json.num _ => CallOutcome.typeErr
      (fname ++ "() argument after ** must be a mapping, not int")
  | Json.str _ => CallOutcome.typeErr
      (fname ++ "() argument after ** must be a mapping, not str")
  | Json.arr _ => CallOutcome.typeErr
      (fname ++ "() argument after ** must be a mapping, not list")

/-- The error payload dict built by the executor for a failed call. -/
def errObj (msg : String) : Json := Json.obj [("error", Json.str msg)]

/-- The tool-role message appended for one tool result (lines 195 to 201
of the source): role tool, content the serialized payload, tool_call_id
the id of the request it answers. -/
def toolMsg (id : String) (payload : Json) : Msg :=
  ⟨"tool", dumps payload, none, some id⟩

/-- The coalesced raw argument payload of a request: line 178 of the
source replaces a falsy payload with the text of an empty JSON object. -/
def rawArgs (tc : ToolCall) : JsonText :=
  tc.function.arguments.getD (JsonText.valid (Json.obj []))

/-- Whether json.loads accepts the raw argument payload of a request. -/
def decodeOk (tc : ToolCall) : Bool :=
  match rawArgs tc with
  | JsonText.valid _ => true
  | JsonText.invalid => false

/-- One iteration of the executor loop body (lines 176 to 201 of the
source), over an explicit dispatch table so that every branch of the
try-except structure can be stated, including the generic-exception
branch that the two built-in handlers never reach. An Except.error result
models an exception escaping the loop body (only the unguarded json.loads
at line 179 can produce one). The second component of a normal result is
the list of Notifier messages pushed by the call, returned here for
observability (the source emits them as side effects). -/
def execOneWith (dispatch : List (String × ToolFn)) (tc : ToolCall) :
    Except String (Msg × List String) :=
  let tool_name := tc.function.name
  match json_loads (rawArgs tc) with
  | Except.error e => Except.error e
  | Except.ok args =>
      match dispatch.lookup tool_name with
      | none => Except.ok (toolMsg tc.id (errObj ("unknown tool " ++ tool_name)), [])
      | some f =>
          match callPython f tool_name args with
          | CallOutcome.ok pushes v => Except.ok (toolMsg tc.id v, pushes)
          | CallOutcome.typeErr e =>
              Except.ok (toolMsg tc.id (errObj ("bad arguments for " ++ tool_name ++ ": " ++ e)), [])
          | CallOutcome.exn pushes e =>
              Except.ok (toolMsg tc.id (errObj ("tool " ++ tool_name ++ " failed: " ++ e)), pushes)

/-- One iteration of the executor loop body against the TOOL_DISPATCH
registry of the source. -/
def execOne (tc : ToolCall) : Except String (Msg × List String) :=
  execOneWith TOOL_DISPATCH tc

/-- The executor loop over an explicit dispatch table: processes the
requests in order, accumulating one tool message per request; an
exception escaping one iteration aborts the remainder. -/
def handleWith (dispatch : List (String × ToolFn)) :
    List ToolCall → Except String (List Msg × List String)
  | [] => Except.ok ([], [])
  | tc :: rest =>
      match execOneWith dispatch tc with
      | Except.error e => Except.error e
      | Except.ok (msg, pushes) =>
          match handleWith dispatch rest with
          | Except.error e => Except.error e
          | Except.ok (msgs, ps) => Except.ok (msg :: msgs, pushes ++ ps)

/-- Embeds handle_tool_calls (lines 170 to 202 of the source): execute
the tool calls returned by the model and return the tool messages to
append, together with the pushed Notifier messages (observability). -/
def handle_tool_calls (tool_calls : List ToolCall) :
    Except String (List Msg × List String) :=
  handleWith TOOL_DISPATCH tool_calls

/-- The persona name constant NAME at line 33 of the source. -/
def NAME : String := "Carlos Vallejo"

/-- The text of the system prompt before the summary section, as a
function of the persona name: the literal prefix of the f-string at
lines 149 to 160 of the source, up to and including the Summary
heading. -/
def sysHead (name : String) : String :=
  "You are acting as " ++ name ++ ". You are answering questions on " ++ name
    ++ apos ++ "s website, "
    ++ "particularly questions related to " ++ name ++ apos
    ++ "s career, background, skills and experience. "
    ++ "Your responsibility is to represent " ++ name
    ++ " for interactions on the website as faithfully as possible. "
    ++ "You are given a summary of " ++ name ++ apos
    ++ "s background and LinkedIn profile which you can use to answer questions. "
    ++ "Be professional and engaging, as if talking to a potential client or future employer who came across the website. "
    ++ "If you don" ++ apos
    ++ "t know the answer to any question, use your record_unknown_question tool to record the question that you couldn"
    ++ apos ++ "t answer, "
    ++ "even if it" ++ apos ++ "s about something trivial or unrelated to career. "
    ++ "If the user is engaging in discussion, try to steer them towards getting in touch via email; ask for their email and name "
    ++ "and record it using your record_user_details tool. "
    ++ "Before calling the record_user_details tool, ask for the user" ++ apos
    ++ "s email address and name together."
    ++ "\n\n## Summary:\n"

/-- The text of the system prompt between the summary and the LinkedIn
profile sections (line 160 of the source). -/
def sysMid : String := "\n\n## LinkedIn Profile:\n"

/-- The text of the system prompt after the LinkedIn profile section, as
a function of the persona name (lines 160 to 161 of the source). -/
def sysTail (name : String) : String :=
  "\n\n"
    ++ "With this context, please chat with the user, always staying in character as "
    ++ name ++ "."

/-- Embeds build_system_prompt (lines 148 to 163 of the source): the
f-string is transcribed as the concatenation of its literal pieces and
interpolated variables, in source order. -/
def build_system_prompt (name : String) (summary : String) (linkedin_text : String) :
    String :=
  "You are acting as " ++ name ++ ". You are answering questions on " ++ name
    ++ apos ++ "s website, "
    ++ "particularly questions related to " ++ name ++ apos
    ++ "s career, background, skills and experience. "
    ++ "Your responsibility is to represent " ++ name
    ++ " for interactions on the website as faithfully as possible. "
    ++ "You are given a summary of " ++ name ++ apos
    ++ "s background and LinkedIn profile which you can use to answer questions. "
    ++ "Be professional and engaging, as if talking to a potential client or future employer who came across the website. "
    ++ "If you don" ++ apos
    ++ "t know the answer to any question, use your record_unknown_question tool to record the question that you couldn"
    ++ apos ++ "t answer, "
    ++ "even if it" ++ apos ++ "s about something trivial or unrelated to career. "
    ++ "If the user is engaging in discussion, try to steer them towards getting in touch via email; ask for their email and name "
    ++ "and record it using your record_user_details tool. "
    ++ "Before calling the record_user_details tool, ask for the user" ++ apos
    ++ "s email address and name together."
    ++ "\n\n## Summary:\n" ++ summary ++ "\n\n## LinkedIn Profile:\n" ++ linkedin_text
    ++ "\n\n"
    ++ "With this context, please chat with the user, always staying in character as "
    ++ name ++ "."

/-- The first choice of a model response message: optional text content
and an optional list of tool calls (absent or None is modelled as
none). -/
structure ModelMessage where
  content : Option String
  tool_calls : Option (List ToolCall)

/-- The first choice of a model response: the finish reason and the
message. The source only ever reads response.choices[0], so the oracle
below produces this directly. -/
structure Choice where
  finish_reason : String
  message : ModelMessage

/-- The external model as the loop observes it: a function from the
current message sequence to the first choice of the response. The
openai.chat.completions.create call at lines 225 to 229 of the source is
an opaque remote call; the loop passes the full current message sequence
and reads back choices[0]. -/
def ModelOracle : Type := List Msg → Choice

/-- The observable outcome of running the conversation loop under a given
fuel bound: a returned reply carrying the returned text together with the
message sequence at the moment of return, a Python exception escaping the
loop, or a loop that is still iterating after the fuel bound many model
rounds (the source loop is while True and has no bound of its own). -/
inductive ChatOutcome where
  | reply : String → List Msg → ChatOutcome
  | fault : String → ChatOutcome
  | running : List Msg → ChatOutcome

/-- Whether the loop is still iterating (neither returned nor raised). -/
def ChatOutcome.isRunning : ChatOutcome → Bool
  | ChatOutcome.running _ => true
  | _ => false

/-- The message sequence held by the loop at the end of the observation:
at return or when fuel runs out; none when an exception escaped. -/
def msgsOf : ChatOutcome → Option (List Msg)
  | ChatOutcome.reply _ ms => some ms
  | ChatOutcome.fault _ => none
  | ChatOutcome.running ms => some ms

/-- Embeds the while True loop of chat (lines 224 to 243 of the source).
The Nat argument is observation fuel: the loop itself is unbounded, and
running means it is still iterating after that many rounds. The second
component of the result counts the model invocations performed, for
stating round-count properties; the source performs these calls as side
effects. One round: call the model; if finish_reason is tool_calls,
execute the calls, append the assistant message (content defaulted to the
empty string, tool_calls the coalesced list) and the tool messages, and
continue; otherwise return the content, defaulted to the empty string. -/
def chatLoop (model : ModelOracle) : Nat → List Msg → ChatOutcome × Nat
  | 0, messages => (ChatOutcome.running messages, 0)
  | n + 1, messages =>
      let choice := model messages
      let finish_reason := choice.finish_reason
      if finish_reason == "tool_calls" then
        let model_msg := choice.message
        let tool_calls := model_msg.tool_calls.getD []
        match handle_tool_calls tool_calls with
        | Except.error e => (ChatOutcome.fault e, 1)
        | Except.ok (results, _ps) =>
            let next := chatLoop model n
              (messages ++ [⟨"assistant", model_msg.content.getD "", some tool_calls, none⟩]
                ++ results)
            (next.1, next.2 + 1)
      else
        (ChatOutcome.reply (choice.message.content.getD "") messages, 1)

/-- The message sequence seeding one turn (lines 219 to 222 of the
source): the freshly built system prompt, then the host-supplied history,
then the new user message. -/
def seededMessages (message : String) (history : List Msg)
    (linkedin_text summary : String) : List Msg :=
  [⟨"system", build_system_prompt NAME summary linkedin_text, none, none⟩]
    ++ history ++ [⟨"user", message, none, none⟩]

/-- Embeds chat (lines 209 to 243 of the source). The grounding texts are
parameters standing for the results of read_pdf_text and read_text_file
(external document loading); the model is the oracle parameter; fuel
bounds the observation of the unbounded loop. -/
def chat (model : ModelOracle) (fuel : Nat) (message : String) (history : List Msg)
    (linkedin_text summary : String) : ChatOutcome × Nat :=
  chatLoop model fuel (seededMessages message history linkedin_text summary)

/-- The decoded argument value of a request whose payload json.loads
accepts (Json.null for an undecodable payload, unused there). -/
def decodedArgs (tc : ToolCall) : Json :=
  match rawArgs tc with
  | JsonText.valid j => j
  | JsonText.invalid => Json.null

/-- The result of one executor iteration after a successful decode: the
tool message and the pushed Notifier messages. Follows the branch
structure of lines 182 to 201 of the source. -/
def execDecoded (tc : ToolCall) (args : Json) : Msg × List String :=
  match TOOL_DISPATCH.lookup tc.function.name with
  | none => (toolMsg tc.id (errObj ("unknown tool " ++ tc.function.name)), [])
  | some f =>
      match callPython f tc.function.name args with
      | CallOutcome.ok pushes v => (toolMsg tc.id v, pushes)
      | CallOutcome.typeErr e =>
          (toolMsg tc.id (errObj ("bad arguments for " ++ tc.function.name ++ ": " ++ e)), [])
      | CallOutcome.exn pushes e =>
          (toolMsg tc.id (errObj ("tool " ++ tc.function.name ++ " failed: " ++ e)), pushes)

/-- A hypothetical tool whose body raises, for exercising the generic
exception branch of the executor (the two built-in handlers never
raise). -/
def boomTool : ToolFn :=
  ⟨[], fun _ => (["boom notification"], Except.error "kaboom")⟩

/-- A tool call request the model could issue on every round: a valid
record_unknown_question invocation. -/
def alwaysCall : ToolCall :=
  ⟨"call_q", ⟨"record_unknown_question",
    some (JsonText.valid (Json.obj [("question", Json.str "ping")]))⟩⟩

/-- A model that requests the same tool call on every round, forever. -/
def alwaysToolModel : ModelOracle :=
  fun _ => ⟨"tool_calls", ⟨none, some [alwaysCall]⟩⟩

/-- A model that immediately returns an ordinary completed answer. -/
def stopOracle : ModelOracle :=
  fun _ => ⟨"stop", ⟨some "hello there", none⟩⟩

/-- A model whose response signals tool calls but carries no tool-call
list and no text. -/
def toolNoneOracle : ModelOracle :=
  fun _ => ⟨"tool_calls", ⟨none, none⟩⟩

/-- A decodable request never makes the executor iteration raise: it
produces exactly the decoded-path result. -/
theorem execOne_eq_decoded (tc : ToolCall) (h : decodeOk tc = true) :
    execOne tc = Except.ok (execDecoded tc (decodedArgs tc)) := by
  unfold decodeOk at h
  cases hr : rawArgs tc with
  | invalid => rw [hr] at h; simp at h
  | valid j =>
      simp only [execOne, execOneWith, execDecoded, decodedArgs, hr, json_loads]
      cases TOOL_DISPATCH.lookup tc.function.name with
      | none => rfl
      | some f =>
          dsimp only
          cases callPython f tc.function.name j <;> rfl

/-- Every decoded-path result message is a tool message correlated to the
id of the request, carrying some serialized payload. -/
theorem execDecoded_payload (tc : ToolCall) (args : Json) :
    ∃ payload, (execDecoded tc args).1 = toolMsg tc.id payload := by
  unfold execDecoded
  cases TOOL_DISPATCH.lookup tc.function.name with
  | none => exact ⟨_, rfl⟩
  | some f =>
      dsimp only
      cases callPython f tc.function.name args with
      | ok pushes v => exact ⟨_, rfl⟩
      | typeErr e => exact ⟨_, rfl⟩
      | exn pushes e => exact ⟨_, rfl⟩

/-- On a batch whose payloads all decode, the executor returns one result
message per request, in request order. -/
theorem handle_ok_map (tcs : List ToolCall) (h : ∀ tc ∈ tcs, decodeOk tc = true) :
    ∃ ps, handle_tool_calls tcs
      = Except.ok (tcs.map (fun tc => (execDecoded tc (decodedArgs tc)).1), ps) := by
  induction tcs with
  | nil => exact ⟨[], rfl⟩
  | cons tc rest ih =>
      have htc : decodeOk tc = true := h tc (by simp)
      have hrest : ∀ c ∈ rest, decodeOk c = true := fun c hc => h c (by simp [hc])
      obtain ⟨ps, hps⟩ := ih hrest
      have he := execOne_eq_decoded tc htc
      rcases hED : execDecoded tc (decodedArgs tc) with ⟨m, p⟩
      rw [hED] at he
      unfold execOne at he
      unfold handle_tool_calls at hps ⊢
      refine ⟨p ++ ps, ?_⟩
      unfold handleWith
      rw [he, hps]
      simp [List.map_cons, hED]

/-- An undecodable payload makes the executor iteration raise the decode
error (the json.loads call at line 179 of the source is not guarded). -/
theorem execOne_invalid (tc : ToolCall) (h : decodeOk tc = false) :
    execOne tc = Except.error jsonDecodeErrorMsg := by
  unfold decodeOk at h
  cases hr : rawArgs tc with
  | valid j => rw [hr] at h; simp at h
  | invalid => simp only [execOne, execOneWith, hr, json_loads]

/-- Claim C2 (amended): a tool-call request whose raw argument payload is
not decodable as JSON makes the executor raise the decode failure as an
unhandled fault that aborts the batch: no ToolResult is produced for that
request or for any request after it. In the code, json.loads at line 179
runs outside the try block, so the spec sentence about an
ArgumentDecodeError ToolResult does not hold. -/
theorem C2_decode_fault_aborts (pre : List ToolCall) (tc : ToolCall) (post : List ToolCall)
    (hpre : ∀ c ∈ pre, decodeOk c = true) (htc : decodeOk tc = false) :
    handle_tool_calls (pre ++ tc :: post) = Except.error jsonDecodeErrorMsg := by
  induction pre with
  | nil =>
      have he := execOne_invalid tc htc
      unfold execOne at he
      unfold handle_tool_calls
      simp only [List.nil_append]
      unfold handleWith
      rw [he]
  | cons c pre ih =>
      have hc : decodeOk c = true := hpre c (by simp)
      have hpre2 : ∀ x ∈ pre, decodeOk x = true := fun x hx => hpre x (by simp [hx])
      have he := execOne_eq_decoded c hc
      rcases hED : execDecoded c (decodedArgs c) with ⟨m, p⟩
      rw [hED] at he
      unfold execOne at he
      have ihh := ih hpre2
      unfold handle_tool_calls at ihh ⊢
      simp only [List.cons_append]
      unfold handleWith
      rw [he, ihh]

/-- Claim C2 counterexample: a batch holding one undecodable request
followed by a well-formed one aborts with the decode fault; neither
request yields a ToolResult, refuting the claim that the decode failure
is turned into an ArgumentDecodeError ToolResult and the batch
continues. -/
theorem C2_counterexample :
    handle_tool_calls
        [⟨"bad_1", ⟨"record_user_details", some JsonText.invalid⟩⟩,
         ⟨"good_1", ⟨"record_unknown_question",
            some (JsonText.valid (Json.obj [("question", Json.str "why")]))⟩⟩]
      = Except.error jsonDecodeErrorMsg := rfl

/-- Claim C3 (amended with: all raw argument payloads decode): the
executor returns exactly one ToolResult per request, in request order,
each a tool-role message whose tool_call_id is the id of the request it
answers and whose content is the json.dumps serialization of the result
payload. -/
theorem C3_results_ordered (tcs : List ToolCall) (h : ∀ tc ∈ tcs, decodeOk tc = true) :
    ∃ out ps, handle_tool_calls tcs = Except.ok (out, ps)
      ∧ out.length = tcs.length
      ∧ ∀ (i : Nat) (hi : i < tcs.length) (hj : i < out.length),
          (out.get ⟨i, hj⟩).role = "tool"
          ∧ (out.get ⟨i, hj⟩).tool_call_id = some ((tcs.get ⟨i, hi⟩).id)
          ∧ ∃ payload, (out.get ⟨i, hj⟩).content = dumps payload := by
  obtain ⟨ps, hps⟩ := handle_ok_map tcs h
  refine ⟨_, ps, hps, by simp, ?_⟩
  intro i hi hj
  have hmap : ((tcs.map (fun tc => (execDecoded tc (decodedArgs tc)).1)).get ⟨i, hj⟩)
      = (execDecoded (tcs.get ⟨i, hi⟩) (decodedArgs (tcs.get ⟨i, hi⟩))).1 := by
    simp [List.get_eq_getElem, List.getElem_map]
  rw [hmap]
  obtain ⟨payload, hp⟩ :=
    execDecoded_payload (tcs.get ⟨i, hi⟩) (decodedArgs (tcs.get ⟨i, hi⟩))
  rw [hp]
  exact ⟨rfl, rfl, payload, rfl⟩

/-- Claim C3 counterexample: for a batch of one request whose payload
does not decode, the executor does not return one ToolResult per request:
it returns no result list at all (the decode fault escapes), refuting the
claim over every finite sequence of requests. -/
theorem C3_counterexample :
    handle_tool_calls [⟨"bad_3", ⟨"record_unknown_question", some JsonText.invalid⟩⟩]
      = Except.error jsonDecodeErrorMsg := rfl

/-- Claim C3 witness. -/
theorem C3_results_ordered_witness :
    ∃ out ps, handle_tool_calls
        [⟨"call_1", ⟨"record_user_details",
            some (JsonText.valid (Json.obj [("email", Json.str "a@b.c")]))⟩⟩,
         ⟨"call_2", ⟨"mystery", some (JsonText.valid (Json.obj []))⟩⟩]
        = Except.ok (out, ps)
      ∧ out.length = 2
      ∧ ∀ (i : Nat) (hi : i < 2) (hj : i < out.length),
          (out.get ⟨i, hj⟩).role = "tool"
          ∧ (out.get ⟨i, hj⟩).tool_call_id
              = some (([(⟨"call_1", ⟨"record_user_details",
                  some (JsonText.valid (Json.obj [("email", Json.str "a@b.c")]))⟩⟩ : ToolCall),
                 ⟨"call_2", ⟨"mystery", some (JsonText.valid (Json.obj []))⟩⟩].get ⟨i, hi⟩).id)
          ∧ ∃ payload, (out.get ⟨i, hj⟩).content = dumps payload :=
  C3_results_ordered
    [⟨"call_1", ⟨"record_user_details",
        some (JsonText.valid (Json.obj [("email", Json.str "a@b.c")]))⟩⟩,
     ⟨"call_2", ⟨"mystery", some (JsonText.valid (Json.obj []))⟩⟩]
    (by decide)

/-- Claim C4 (amended with: the raw argument payloads involved decode):
a request whose tool name is not in TOOL_DISPATCH yields a structured
error ToolResult whose payload marks the unknown tool, in its position in
the batch, and the requests after it are still processed (one result
each). The kind marker of the code is the message text starting with
"unknown tool". -/
theorem C4_unknown_tool (pre : List ToolCall) (tc : ToolCall) (post : List ToolCall)
    (hpre : ∀ c ∈ pre, decodeOk c = true) (hpost : ∀ c ∈ post, decodeOk c = true)
    (htc : decodeOk tc = true)
    (hname : TOOL_DISPATCH.lookup tc.function.name = none) :
    ∃ ms1 ms2 ps, handle_tool_calls (pre ++ tc :: post)
        = Except.ok (ms1 ++ toolMsg tc.id (errObj ("unknown tool " ++ tc.function.name)) :: ms2, ps)
      ∧ ms1.length = pre.length ∧ ms2.length = post.length := by
  have hexec : execOne tc
      = Except.ok (toolMsg tc.id (errObj ("unknown tool " ++ tc.function.name)), []) := by
    rw [execOne_eq_decoded tc htc]
    unfold execDecoded
    rw [hname]
  unfold execOne at hexec
  induction pre with
  | nil =>
      obtain ⟨ps, hps⟩ := handle_ok_map post hpost
      refine ⟨[], post.map (fun c => (execDecoded c (decodedArgs c)).1), ps, ?_, rfl, by simp⟩
      unfold handle_tool_calls at hps ⊢
      simp only [List.nil_append]
      unfold handleWith
      rw [hexec, hps]
      rfl
  | cons c pre ih =>
      have hc : decodeOk c = true := hpre c (by simp)
      have hpre2 : ∀ x ∈ pre, decodeOk x = true := fun x hx => hpre x (by simp [hx])
      have he := execOne_eq_decoded c hc
      rcases hED : execDecoded c (decodedArgs c) with ⟨m, p⟩
      rw [hED] at he
      unfold execOne at he
      obtain ⟨ms1, ms2, ps, heq, h1, h2⟩ := ih hpre2
      refine ⟨m :: ms1, ms2, p ++ ps, ?_, by simp [h1], h2⟩
      unfold handle_tool_calls at heq ⊢
      simp only [List.cons_append]
      unfold handleWith
      rw [he, heq]

/-- Claim C4 witness. -/
theorem C4_unknown_tool_witness :
    ∃ ms1 ms2 ps, handle_tool_calls
        [⟨"call_1", ⟨"record_unknown_question",
            some (JsonText.valid (Json.obj [("question", Json.str "why")]))⟩⟩,
         ⟨"call_u", ⟨"mystery", some (JsonText.valid (Json.obj []))⟩⟩,
         ⟨"call_2", ⟨"record_user_details",
            some (JsonText.valid (Json.obj [("email", Json.str "a@b.c")]))⟩⟩]
        = Except.ok (ms1 ++ toolMsg "call_u" (errObj ("unknown tool " ++ "mystery")) :: ms2, ps)
      ∧ ms1.length = 1 ∧ ms2.length = 1 :=
  C4_unknown_tool
    [⟨"call_1", ⟨"record_unknown_question",
        some (JsonText.valid (Json.obj [("question", Json.str "why")]))⟩⟩]
    ⟨"call_u", ⟨"mystery", some (JsonText.valid (Json.obj []))⟩⟩
    [⟨"call_2", ⟨"record_user_details",
        some (JsonText.valid (Json.obj [("email", Json.str "a@b.c")]))⟩⟩]
    (by decide) (by decide) (by decide) rfl

/-- Unfolding equation for one step of the executor loop. -/
theorem handleWith_cons (d : List (String × ToolFn)) (tc : ToolCall) (rest : List ToolCall) :
    handleWith d (tc :: rest)
      = match execOneWith d tc with
        | Except.error e => Except.error e
        | Except.ok (msg, pushes) =>
            match handleWith d rest with
            | Except.error e => Except.error e
            | Except.ok (msgs, ps) => Except.ok (msg :: msgs, pushes ++ ps) := rfl

/-- Claim C5: for a registered tool, decoded arguments that do not fit
the declared parameters (a required parameter missing, or an extra
parameter not declared — exactly the failures of bindKwargs) yield an
error ToolResult carrying the bad-arguments diagnostic; a handler body
that raises yields an error ToolResult carrying the failure message
(stated over an arbitrary dispatch table, since the two built-in handler
bodies never raise, so that branch of the except structure is exercised
with a hypothetical tool); and a non-raising iteration never aborts the
batch: the remaining requests are still processed. -/
theorem C5_bad_args_and_exec_error :
    (∀ (tc : ToolCall) (f : ToolFn) (kvs : List (String × Json)) (e : String),
        json_loads (rawArgs tc) = Except.ok (Json.obj kvs) →
        TOOL_DISPATCH.lookup tc.function.name = some f →
        bindKwargs tc.function.name f.params kvs = Except.error e →
        execOne tc = Except.ok
          (toolMsg tc.id (errObj ("bad arguments for " ++ tc.function.name ++ ": " ++ e)), []))
    ∧ (∀ (dispatch : List (String × ToolFn)) (tc : ToolCall) (f : ToolFn)
          (kvs : List (String × Json)) (bound : List Json) (pushes : List String) (e : String),
        json_loads (rawArgs tc) = Except.ok (Json.obj kvs) →
        dispatch.lookup tc.function.name = some f →
        bindKwargs tc.function.name f.params kvs = Except.ok bound →
        f.body bound = (pushes, Except.error e) →
        execOneWith dispatch tc = Except.ok
          (toolMsg tc.id (errObj ("tool " ++ tc.function.name ++ " failed: " ++ e)), pushes))
    ∧ (∀ (dispatch : List (String × ToolFn)) (tc : ToolCall) (rest : List ToolCall)
          (m : Msg) (p : List String),
        execOneWith dispatch tc = Except.ok (m, p) →
        handleWith dispatch (tc :: rest)
          = (handleWith dispatch rest).map (fun r => (m :: r.1, p ++ r.2))) := by
  refine ⟨?_, ?_, ?_⟩
  · intro tc f kvs e h1 h2 h3
    simp only [execOne, execOneWith, h1]
    rw [h2]
    dsimp only
    unfold callPython
    dsimp only
    rw [h3]
  · intro dispatch tc f kvs bound pushes e h1 h2 h3 h4
    simp only [execOneWith, h1]
    rw [h2]
    dsimp only
    unfold callPython
    dsimp only
    rw [h3]
    dsimp only
    rw [h4]
  · intro dispatch tc rest m p h
    rw [handleWith_cons, h]
    cases hres : handleWith dispatch rest with
    | error e => simp [Except.map]
    | ok r => cases r; simp [Except.map]

/-- Claim C5 witness. -/
theorem C5_bad_args_and_exec_error_witness :
    execOne ⟨"w5a", ⟨"record_user_details", some (JsonText.valid (Json.obj []))⟩⟩
      = Except.ok
          (toolMsg "w5a" (errObj ("bad arguments for record_user_details: "
            ++ "record_user_details() missing 1 required positional argument: "
            ++ apos ++ "email" ++ apos)), [])
    ∧ execOneWith [("boom", boomTool)] ⟨"w5b", ⟨"boom", some (JsonText.valid (Json.obj []))⟩⟩
      = Except.ok
          (toolMsg "w5b" (errObj "tool boom failed: kaboom"), ["boom notification"])
    ∧ handleWith TOOL_DISPATCH
        [⟨"w5c", ⟨"record_unknown_question",
            some (JsonText.valid (Json.obj [("question", Json.str "why")]))⟩⟩,
         ⟨"w5d", ⟨"record_user_details",
            some (JsonText.valid (Json.obj [("email", Json.str "a@b.c")]))⟩⟩]
      = (handleWith TOOL_DISPATCH
          [⟨"w5d", ⟨"record_user_details",
              some (JsonText.valid (Json.obj [("email", Json.str "a@b.c")]))⟩⟩]).map
          (fun r => (toolMsg "w5c" (Json.obj [("recorded", Json.str "ok")]) :: r.1,
            ["Recording " ++ apos ++ "why" ++ apos ++ " asked that I couldn" ++ apos
              ++ "t answer"] ++ r.2)) :=
  ⟨C5_bad_args_and_exec_error.1
      ⟨"w5a", ⟨"record_user_details", some (JsonText.valid (Json.obj []))⟩⟩
      record_user_details []
      ("record_user_details() missing 1 required positional argument: "
        ++ apos ++ "email" ++ apos)
      rfl rfl rfl,
   C5_bad_args_and_exec_error.2.1
      [("boom", boomTool)]
      ⟨"w5b", ⟨"boom", some (JsonText.valid (Json.obj []))⟩⟩
      boomTool [] [] ["boom notification"] "kaboom"
      rfl rfl rfl rfl,
   C5_bad_args_and_exec_error.2.2
      TOOL_DISPATCH
      ⟨"w5c", ⟨"record_unknown_question",
          some (JsonText.valid (Json.obj [("question", Json.str "why")]))⟩⟩
      [⟨"w5d", ⟨"record_user_details",
          some (JsonText.valid (Json.obj [("email", Json.str "a@b.c")]))⟩⟩]
      (toolMsg "w5c" (Json.obj [("recorded", Json.str "ok")]))
      ["Recording " ++ apos ++ "why" ++ apos ++ " asked that I couldn" ++ apos ++ "t answer"]
      rfl⟩

/-- Claim C6: invoking record_user_details with only an email substitutes
the defaults for name and notes, returns the serialized success payload
of recorded ok, and performs exactly one Notifier call;
record_unknown_question with a question string returns the same success
payload. -/
theorem C6_builtin_tools :
    handle_tool_calls [⟨"call_1", ⟨"record_user_details",
        some (JsonText.valid (Json.obj [("email", Json.str "ada@example.com")]))⟩⟩]
      = Except.ok ([⟨"tool", "\x7b\"recorded\": \"ok\"\x7d", none, some "call_1"⟩],
          ["Recording interest from Name not provided with email ada@example.com and notes not provided"])
    ∧ handle_tool_calls [⟨"call_2", ⟨"record_unknown_question",
        some (JsonText.valid (Json.obj [("question", Json.str "favorite color")]))⟩⟩]
      = Except.ok ([⟨"tool", "\x7b\"recorded\": \"ok\"\x7d", none, some "call_2"⟩],
          ["Recording " ++ apos ++ "favorite color" ++ apos ++ " asked that I couldn"
            ++ apos ++ "t answer"]) :=
  ⟨rfl, rfl⟩

/-- Unfolding equation for one round of the conversation loop. -/
theorem chatLoop_succ (model : ModelOracle) (n : Nat) (messages : List Msg) :
    chatLoop model (n + 1) messages
      = if (model messages).finish_reason == "tool_calls" then
          match handle_tool_calls ((model messages).message.tool_calls.getD []) with
          | Except.error e => (ChatOutcome.fault e, 1)
          | Except.ok (results, _ps) =>
              ((chatLoop model n (messages
                  ++ [⟨"assistant", (model messages).message.content.getD "",
                      some ((model messages).message.tool_calls.getD []), none⟩] ++ results)).1,
               (chatLoop model n (messages
                  ++ [⟨"assistant", (model messages).message.content.getD "",
                      some ((model messages).message.tool_calls.getD []), none⟩] ++ results)).2 + 1)
        else (ChatOutcome.reply ((model messages).message.content.getD "") messages, 1) := rfl

/-- When the model response does not signal tool calls, one round returns
its text (empty string when no text) without touching the messages. -/
theorem chatLoop_stop (model : ModelOracle) (n : Nat) (msgs : List Msg)
    (h : (model msgs).finish_reason ≠ "tool_calls") :
    chatLoop model (n + 1) msgs
      = (ChatOutcome.reply ((model msgs).message.content.getD "") msgs, 1) := by
  have hb : ((model msgs).finish_reason == "tool_calls") = false := by
    simpa using h
  unfold chatLoop
  simp [hb]

/-- Claim C7: when the first model response of a turn signals a completed
ordinary answer (finish_reason is not tool_calls), the loop performs
exactly one model call, appends nothing (the message sequence at return
is the seeded one), and returns the response text unchanged, the empty
string when the model returned no text. -/
theorem C7_single_round_reply (model : ModelOracle) (n : Nat) (message : String)
    (history : List Msg) (linkedin_text summary : String)
    (h : (model (seededMessages message history linkedin_text summary)).finish_reason
        ≠ "tool_calls") :
    chat model (n + 1) message history linkedin_text summary
      = (ChatOutcome.reply
          ((model (seededMessages message history linkedin_text summary)).message.content.getD "")
          (seededMessages message history linkedin_text summary), 1) := by
  unfold chat
  exact chatLoop_stop model n (seededMessages message history linkedin_text summary) h

/-- Claim C7 witness. -/
theorem C7_single_round_reply_witness :
    chat stopOracle 1 "hi" [] "li" "su"
      = (ChatOutcome.reply "hello there" (seededMessages "hi" [] "li" "su"), 1) :=
  C7_single_round_reply stopOracle 0 "hi" [] "li" "su" (by decide)

/-- Claim C10: a response that signals tool_calls but carries no
tool-call list does not fault: the executor maps the empty request list
to the empty result list, exactly one assistant message is appended
(content the empty string when none was given, tool_calls the empty
list) with zero tool messages, and the loop proceeds to the next model
round (one further unit of fuel is consumed and the model-call count
grows by one). -/
theorem C10_no_tool_call_list (model : ModelOracle) (msgs : List Msg) (n : Nat)
    (h1 : (model msgs).finish_reason = "tool_calls")
    (h2 : (model msgs).message.tool_calls = none) :
    handle_tool_calls [] = Except.ok ([], [])
    ∧ chatLoop model (n + 1) msgs
        = ((chatLoop model n
              (msgs ++ [⟨"assistant", (model msgs).message.content.getD "", some [], none⟩])).1,
           (chatLoop model n
              (msgs ++ [⟨"assistant", (model msgs).message.content.getD "", some [], none⟩])).2
             + 1) := by
  refine ⟨rfl, ?_⟩
  rw [chatLoop_succ]
  simp [h1, h2, handle_tool_calls, handleWith]

/-- Claim C10 witness. -/
theorem C10_no_tool_call_list_witness :
    handle_tool_calls [] = Except.ok ([], [])
    ∧ chatLoop toolNoneOracle 1 []
        = ((chatLoop toolNoneOracle 0 [⟨"assistant", "", some [], none⟩]).1,
           (chatLoop toolNoneOracle 0 [⟨"assistant", "", some [], none⟩]).2 + 1) :=
  C10_no_tool_call_list toolNoneOracle [] 0 rfl rfl

/-- Claim C1 (amended): the loop of chat has no iteration cap. Against a
model that requests a tool call on every round, the loop is still
iterating after any number of rounds, having performed one model call per
round, and never produces a distinguishable could-not-complete result
(the code has no IterationLimitExceeded outcome at all: the loop is
while True). -/
theorem C1_no_iteration_cap (n : Nat) (msgs : List Msg) :
    ((chatLoop alwaysToolModel n msgs).1).isRunning = true
    ∧ (chatLoop alwaysToolModel n msgs).2 = n := by
  induction n generalizing msgs with
  | zero => exact ⟨rfl, rfl⟩
  | succ n ih =>
      have step : chatLoop alwaysToolModel (n + 1) msgs
          = ((chatLoop alwaysToolModel n (msgs
                ++ [⟨"assistant", "", some [alwaysCall], none⟩]
                ++ [toolMsg "call_q" (Json.obj [("recorded", Json.str "ok")])])).1,
             (chatLoop alwaysToolModel n (msgs
                ++ [⟨"assistant", "", some [alwaysCall], none⟩]
                ++ [toolMsg "call_q" (Json.obj [("recorded", Json.str "ok")])])).2 + 1) := by
        rw [chatLoop_succ]
        rfl
      constructor
      · rw [step]
        exact (ih _).1
      · rw [step, (ih _).2]

/-- Claim C1 counterexample: with a model that requests tool calls on
every round, after fifty rounds the loop has performed fifty model calls
and is still iterating; no iteration cap has fired and no
could-not-complete result has been produced. -/
theorem C1_counterexample :
    ((chat alwaysToolModel 50 "hello" [] "" "").1).isRunning = true
    ∧ (chat alwaysToolModel 50 "hello" [] "" "").2 = 50 := ⟨rfl, rfl⟩

/-- Claim C9: the message sequence of a turn is seeded as the freshly
built system prompt, then the prior history unchanged, then the new user
message, so its first message has role system and is rebuilt from the
current grounding text on every call; and the loop only ever appends to
that sequence: whatever messages the loop holds at the end of the
observation extend the starting sequence (the host history, embedded in
it, is never altered — mutation does not exist in this embedding, and
the source only appends). -/
theorem C9_seeding_and_append_only :
    (∀ (message : String) (history : List Msg) (linkedin_text summary : String),
        seededMessages message history linkedin_text summary
          = ⟨"system", build_system_prompt NAME summary linkedin_text, none, none⟩
              :: (history ++ [⟨"user", message, none, none⟩])
        ∧ ((seededMessages message history linkedin_text summary).head?.map Msg.role)
            = some "system")
    ∧ (∀ (model : ModelOracle) (fuel : Nat) (msgs ms : List Msg),
        msgsOf (chatLoop model fuel msgs).1 = some ms → ∃ extra, ms = msgs ++ extra) := by
  constructor
  · intro message history linkedin_text summary
    constructor
    · simp [seededMessages]
    · simp [seededMessages]
  · intro model fuel
    induction fuel with
    | zero =>
        intro msgs ms h
        simp only [chatLoop, msgsOf, Option.some.injEq] at h
        exact ⟨[], by simp [← h]⟩
    | succ n ih =>
        intro msgs ms h
        rw [chatLoop_succ] at h
        cases hb : (model msgs).finish_reason == "tool_calls" with
        | false =>
            rw [hb] at h
            simp only [Bool.false_eq_true, if_false, msgsOf, Option.some.injEq] at h
            exact ⟨[], by simp [← h]⟩
        | true =>
            rw [hb] at h
            simp only [if_true] at h
            cases hh : handle_tool_calls ((model msgs).message.tool_calls.getD []) with
            | error e =>
                rw [hh] at h
                simp [msgsOf] at h
            | ok r =>
                rw [hh] at h
                rcases r with ⟨results, ps⟩
                dsimp only at h
                obtain ⟨extra, hex⟩ := ih _ ms h
                refine ⟨[⟨"assistant", (model msgs).message.content.getD "",
                    some ((model msgs).message.tool_calls.getD []), none⟩] ++ results ++ extra, ?_⟩
                rw [hex]
                simp [List.append_assoc]

/-- Claim C9 witness. -/
theorem C9_seeding_and_append_only_witness :
    (seededMessages "hi" [] "li" "su"
        = ⟨"system", build_system_prompt NAME "su" "li", none, none⟩
            :: ([] ++ [⟨"user", "hi", none, none⟩])
      ∧ ((seededMessages "hi" [] "li" "su").head?.map Msg.role) = some "system")
    ∧ ∃ extra, seededMessages "hi" [] "li" "su" = seededMessages "hi" [] "li" "su" ++ extra :=
  ⟨C9_seeding_and_append_only.1 "hi" [] "li" "su",
   C9_seeding_and_append_only.2 stopOracle 1
     (seededMessages "hi" [] "li" "su") (seededMessages "hi" [] "li" "su") rfl⟩

/-- Claim C8: build_system_prompt is a total pure function (a Lean
function; the source body performs no side effect) that decomposes, for
every input including empty grounding strings, into a fixed head, the
summary verbatim, a fixed middle, the profile text verbatim, and a fixed
tail; consequently its length is exactly the sum of the part lengths, so
the grounding text is interpolated verbatim and empty grounding degrades
to blank sections without fault. -/
theorem C8_prompt_pure_verbatim (name summary linkedin_text : String) :
    build_system_prompt name summary linkedin_text
      = sysHead name ++ (summary ++ (sysMid ++ (linkedin_text ++ sysTail name)))
    ∧ (build_system_prompt name summary linkedin_text).length
      = (sysHead name).length + summary.length + sysMid.length
        + linkedin_text.length + (sysTail name).length := by
  constructor
  · simp [build_system_prompt, sysHead, sysMid, sysTail, String.append_assoc]
  · simp only [build_system_prompt, sysHead, sysMid, sysTail, String.length_append]
    omega

/-- Claim C2 witness. -/
theorem C2_decode_fault_aborts_witness :
    handle_tool_calls
        [⟨"good_2", ⟨"record_unknown_question",
            some (JsonText.valid (Json.obj [("question", Json.str "hi")]))⟩⟩,
         ⟨"bad_2", ⟨"record_user_details", some JsonText.invalid⟩⟩,
         ⟨"after_2", ⟨"record_unknown_question",
            some (JsonText.valid (Json.obj [("question", Json.str "bye")]))⟩⟩]
      = Except.error jsonDecodeErrorMsg :=
  C2_decode_fault_aborts
    [⟨"good_2", ⟨"record_unknown_question",
        some (JsonText.valid (Json.obj [("question", Json.str "hi")]))⟩⟩]
    ⟨"bad_2", ⟨"record_user_details", some JsonText.invalid⟩⟩
    [⟨"after_2", ⟨"record_unknown_question",
        some (JsonText.valid (Json.obj [("question", Json.str "bye")]))⟩⟩]
    (by decide) (by decide)

/-- Claim C4 counterexample: a request whose tool name is unregistered
and whose raw argument payload is undecodable makes the executor raise
(the decode at line 179 runs before the registry lookup), so the claim
that an unregistered name always yields an UnknownTool error result and
never an unhandled fault is false as universally stated. -/
theorem C4_counterexample :
    handle_tool_calls [⟨"bad_4", ⟨"mystery", some JsonText.invalid⟩⟩]
      = Except.error jsonDecodeErrorMsg := rfl
